import Mathlib

/-!
Verification of the worklog-ai prompt/response pipeline.

The repository is a VS Code extension written in TypeScript.  This file gives a
shallow embedding of the pure string-processing core of that pipeline — prompt
construction (`worklogGenerator.ts`, `configService.ts`), response parsing
(`configService.ts`, `worklogPanel.ts`), PR-template filling and cleanup
(`prTemplateService.ts`) and the model-listing cache (`modelService.ts`) — and
proves or refutes the specified properties.

JavaScript strings are modelled as `List Char`.  Network calls are modelled by
passing the outcome of the single HTTP request (success envelope, HTTP error
status/body, or transport failure) as an explicit argument; thrown JavaScript
errors are modelled as `Except` values carrying the error message.
-/

namespace WorklogAI

/-- JavaScript strings, modelled as lists of characters. -/
abbrev Text := List Char

/-- Embed a Lean string literal as a character list. -/
def txt (s : String) : Text := s.toList

/-! ## Prompt Builder (`src/worklogGenerator.ts`, `src/configService.ts`)

`createPrompt` (worklogGenerator.ts), `createCommitMessagePrompt` and
`createWorklogPrompt` (configService.ts) all start with the same guard:

    const limitedChanges =
      changes.length > 10000 ? changes.substring(0, 10000) + "...[truncated]" : changes;
-/

/-- The truncation marker appended by the prompt builders. -/
def truncationMarker : Text := txt "...[truncated]"

/-- `changes.length > 10000 ? changes.substring(0, 10000) + "...[truncated]" : changes`. -/
def limitedChanges (changes : Text) : Text :=
  if changes.length > 10000 then changes.take 10000 ++ truncationMarker else changes

/-- `styleInstruction` selected by the `switch (worklogStyle)` in
`createPrompt` (worklogGenerator.ts, cases `commit-message`, `technical`,
`business`/default). -/
def wgStyleInstruction (worklogStyle : Text) : Text :=
  if worklogStyle = txt "commit-message" then
    txt "\nCreate a concise git commit message with the following requirements:\n- The first line should be a clear summary of the changes (max 100 characters)\n- Use the imperative mood (e.g., \"Add feature\" not \"Added feature\")\n- Focus on the \"what\" and \"why\" of the changes, not the \"how\"\n- Be specific but concise\n- Start with a capital letter and do not end with a period\n"
  else if worklogStyle = txt "technical" then
    txt "\nCreate a detailed technical worklog with the following requirements:\n- Include specific file names, function names, field names, and class names\n- Mention the type of change (added, modified, removed, refactored)\n- Be specific about technical implementation details\n- Use developer-friendly language and terminology\n- Focus on what was technically implemented\n- Each bullet point should be specific and actionable\n"
  else
    txt "\nCreate a business-focused worklog using human-readable language:\n- Do NOT include file names, function names, or technical jargon\n- Use action words like: created, updated, modified, implemented, integrated, optimized, refactored, analyzed, verified, reviewed, enhanced, improved, fixed, resolved, added, removed\n- Focus on the business value and impact of changes\n- Explain what was accomplished from a user/business perspective\n- Each bullet point should describe a meaningful business outcome\n- Write as if explaining to a non-technical stakeholder\n"

/-- `exampleFormat` selected by the same `switch` in `createPrompt`. -/
def wgExampleFormat (worklogStyle : Text) : Text :=
  if worklogStyle = txt "commit-message" then
    txt "\nExample Commit Message:\nAdd user authentication with Google OAuth2\n\nExample Commit Description:\n- Implement Google OAuth2 authentication flow\n- Add user profile data storage in database\n- Create middleware for protected routes\n- Update login UI to include Google sign-in button\n- Add session management for authenticated users\n"
  else if worklogStyle = txt "technical" then
    txt "\nExample Technical Worklog:\n- Added `calculateTotalPrice()` function in `src/utils/pricing.ts`\n- Modified `UserModel.email` field validation in `models/User.js`\n- Removed deprecated `oldPaymentMethod` property from `PaymentService` class\n- Refactored `processOrder()` method in `services/OrderService.ts` to use async/await\n- Created new `ValidationError` class in `src/errors/ValidationError.ts`\n- Updated `database.config.js` to include connection pooling settings\n- Fixed null pointer exception in `getUserById()` method\n\nExample DSU Script:\n\"I worked on improving the payment processing system. I added a new price calculation function, updated user validation logic, and refactored the order processing to be more reliable. I also created better error handling and fixed some database connection issues.\"\n"
  else
    txt "\nExample Business Worklog:\n- Created automated pricing calculation system\n- Updated user email validation to improve data quality\n- Removed outdated payment processing methods\n- Improved order processing performance and reliability\n- Implemented comprehensive error handling for better user experience\n- Enhanced database connection management for better scalability\n- Fixed user lookup issues that were causing login problems\n\nExample DSU Script:\n\"I worked on enhancing our payment system. I created an automated pricing feature, improved user data validation, and made the order processing more reliable. I also implemented better error handling to improve the user experience and fixed some login issues that customers were experiencing.\"\n"

/-- The worklog-style `instructions` block of `createPrompt`; the source sets
the identical literal in both the `technical` and `business`/default cases. -/
def wgWorklogInstructions : Text :=
  txt "\nINSTRUCTIONS:\nGenerate exactly two sections:\n\n1. **WORKLOG BULLETS:**\n- Generate only bullet points, no paragraphs or explanations\n- Each bullet point should be concise but descriptive\n- Focus on the most important and meaningful changes\n- Ignore minor formatting changes, whitespace, or trivial updates\n- Maximum 10 bullet points\n- Start each bullet with a dash (-)\n\n2. **DSU SCRIPT:**\n- Write a 2-3 sentence script that starts with \"I worked on...\"\n- Make it conversational and suitable for reading in a daily stand-up call\n- Summarize the key accomplishments in natural language\n- Keep it under 100 words\n"

/-- `instructions` selected by the same `switch` in `createPrompt`. -/
def wgInstructions (worklogStyle : Text) : Text :=
  if worklogStyle = txt "commit-message" then
    txt "\nINSTRUCTIONS:\nGenerate exactly two sections:\n\n1. **COMMIT MESSAGE:**\n- A single line summary of the changes\n- Maximum 100 characters\n- Use imperative mood (e.g., \"Add feature\" not \"Added feature\")\n- Start with a capital letter and do not end with a period\n\n2. **COMMIT DESCRIPTION:**\n- Generate 3-5 bullet points explaining the changes in more detail\n- Each bullet point should be concise but descriptive\n- Focus on the most important and meaningful changes\n- Start each bullet with a dash (-)\n"
  else
    wgWorklogInstructions

/-- `createPrompt(changes, worklogStyle)` from `src/worklogGenerator.ts`. -/
def createPrompt (changes worklogStyle : Text) : Text :=
  txt "\nYou are a professional software developer creating a worklog entry. Analyze the provided code changes and generate the appropriate output.\n\nSTYLE REQUIREMENTS:\n"
    ++ wgStyleInstruction worklogStyle
    ++ txt "\n\nFORMAT EXAMPLE:\n"
    ++ wgExampleFormat worklogStyle
    ++ txt "\n\n"
    ++ wgInstructions worklogStyle
    ++ txt "\n\nCODE CHANGES TO ANALYZE:\n"
    ++ limitedChanges changes
    ++ txt "\n\nGenerate the output now:\n"

/-- `createCommitMessagePrompt(changes)` from `src/configService.ts`. -/
def createCommitMessagePrompt (changes : Text) : Text :=
  txt "\nYou are a professional software developer creating a commit message for code changes. Analyze the provided code changes and generate a concise commit message and description.\n\nREQUIREMENTS:\n- Generate a commit message that is between 1 and 100 characters\n- The commit message should be clear, concise, and descriptive\n- Use imperative mood (e.g., \"Add\", \"Fix\", \"Update\", not \"Added\", \"Fixed\", \"Updated\")\n- Focus on WHAT was changed and WHY, not HOW\n- Do not include issue numbers or ticket references\n- Capitalize the first word and do not end with a period\n- For the description, provide 3-5 bullet points that explain the changes in more detail\n- Each bullet point should start with a dash (-)\n- The description should provide context that isn\x27t obvious from the commit message\n\nEXAMPLE COMMIT MESSAGES:\n- \"Add user authentication feature\"\n- \"Fix null pointer exception in payment processing\"\n- \"Update documentation for API endpoints\"\n- \"Refactor database connection handling\"\n- \"Optimize image loading performance\"\n\nEXAMPLE DESCRIPTIONS:\n- Implemented JWT token-based authentication\n- Added login and registration endpoints\n- Created user session management\n- Updated tests to cover authentication flows\n\nCODE CHANGES TO ANALYZE:\n"
    ++ limitedChanges changes
    ++ txt "\n\nGenerate a commit message and description now:\n"

/-- `styleInstruction` of `createWorklogPrompt` (configService.ts): the
`technical` case and the `business`/default case reuse the literals of
`createPrompt`. -/
def cwStyleInstruction (worklogStyle : Text) : Text :=
  if worklogStyle = txt "technical" then wgStyleInstruction (txt "technical")
  else wgStyleInstruction (txt "business")

/-- `exampleFormat` of `createWorklogPrompt` (same literals as `createPrompt`). -/
def cwExampleFormat (worklogStyle : Text) : Text :=
  if worklogStyle = txt "technical" then wgExampleFormat (txt "technical")
  else wgExampleFormat (txt "business")

/-- `createWorklogPrompt(changes, worklogStyle)` from `src/configService.ts`. -/
def createWorklogPrompt (changes worklogStyle : Text) : Text :=
  txt "\nYou are a professional software developer creating a worklog entry. Analyze the provided code changes and generate both a detailed worklog and a DSU script.\n\nSTYLE REQUIREMENTS:\n"
    ++ cwStyleInstruction worklogStyle
    ++ txt "\n\nFORMAT EXAMPLE:\n"
    ++ cwExampleFormat worklogStyle
    ++ txt "\n\nINSTRUCTIONS:\nGenerate exactly two sections:\n\n1. **WORKLOG BULLETS:**\n- Generate only bullet points, no paragraphs or explanations\n- Each bullet point should be concise but descriptive\n- Focus on the most important and meaningful changes\n- Ignore minor formatting changes, whitespace, or trivial updates\n- Maximum 10 bullet points\n- Start each bullet with a dash (-)\n\n2. **DSU SCRIPT:**\n- Write a 2-3 sentence script that starts with \"I worked on...\"\n- Make it conversational and suitable for reading in a daily stand-up call\n- Summarize the key accomplishments in natural language\n- Keep it under 100 words\n\nCODE CHANGES TO ANALYZE:\n"
    ++ limitedChanges changes
    ++ txt "\n\nGenerate the worklog and DSU script now:\n"

/-! ## Text utilities shared by the parsers

`jsWs` models the whitespace class used both by JavaScript `\s` and by
`String.prototype.trim` (restricted to the ASCII whitespace characters; the
repository's data never contains the exotic Unicode space characters). -/

/-- ASCII fragment of JavaScript whitespace (`\s`, `trim`). -/
def jsWs (c : Char) : Bool :=
  c = ' ' || c = '\t' || c = '\n' || c = '\r' || c = '\x0b' || c = '\x0c'

/-- Leading-whitespace removal. -/
def trimLeft (l : Text) : Text := l.dropWhile jsWs

/-- Trailing-whitespace removal. -/
def trimRight (l : Text) : Text := (l.reverse.dropWhile jsWs).reverse

/-- JavaScript `s.trim()`. -/
def jsTrim (l : Text) : Text := trimRight (trimLeft l)

/-- JavaScript `s.split('\n')`. -/
def splitLines : Text → List Text
  | [] => [[]]
  | c :: rest =>
    if c = '\n' then [] :: splitLines rest
    else
      match splitLines rest with
      | [] => [[c]]
      | h :: t => (c :: h) :: t

/-- JavaScript `arr.join('\n')`. -/
def joinLines : List Text → Text
  | [] => []
  | [l] => l
  | l :: ls => l ++ '\n' :: joinLines ls

/-- Lower-casing used to model the `i` regex flag and `toLowerCase()`
(ASCII-adequate for every pattern the repository matches). -/
def lcase (c : Char) : Char := c.toLower

/-! ## Response Parser for commit messages (`generateCommitMessage`, `src/configService.ts`)

    const lines = response.trim().split('\n');
    message = lines[0].replace(/^(#|\*\*|__) ?/, '').replace(/ ?(:|\*\*|__)$/, '');
    message = message.replace(/^(Commit Message|Message|Title|Subject): ?/i, '');
    if (message.length > 100) { message = message.substring(0, 97) + '...'; }
-/

/-- `line.replace(/^(#|\*\*|__) ?/, '')`: drop one leading markdown token and
at most one following space (first match only, anchored). -/
def stripMdOpen (l : Text) : Text :=
  match l with
  | '#' :: ' ' :: rest => rest
  | '#' :: rest => rest
  | '*' :: '*' :: ' ' :: rest => rest
  | '*' :: '*' :: rest => rest
  | '_' :: '_' :: ' ' :: rest => rest
  | '_' :: '_' :: rest => rest
  | _ => l

/-- `line.replace(/ ?(:|\*\*|__)$/, '')`: drop one trailing `:`/`**`/`__`
token and at most one space before it (the leftmost match of this anchored
pattern is exactly the longest such suffix). -/
def stripMdClose (l : Text) : Text :=
  match l.reverse with
  | '*' :: '*' :: ' ' :: rest => rest.reverse
  | '*' :: '*' :: rest => rest.reverse
  | '_' :: '_' :: ' ' :: rest => rest.reverse
  | ':' :: ' ' :: rest => rest.reverse
  | ':' :: rest => rest.reverse
  | _ => l

/-- One alternative of `/^(Commit Message|Message|Title|Subject): ?/i`:
case-insensitive label, then `:`, then at most one space. -/
def tryLabel (lab l : Text) : Option Text :=
  if (l.take lab.length).map lcase = lab then
    match l.drop lab.length with
    | ':' :: ' ' :: rest => some rest
    | ':' :: rest => some rest
    | _ => none
  else none

/-- `message.replace(/^(Commit Message|Message|Title|Subject): ?/i, '')`,
with the alternatives tried in source order. -/
def stripLabel (l : Text) : Text :=
  match tryLabel (txt "commit message") l with
  | some r => r
  | none =>
    match tryLabel (txt "message") l with
    | some r => r
    | none =>
      match tryLabel (txt "title") l with
      | some r => r
      | none =>
        match tryLabel (txt "subject") l with
        | some r => r
        | none => l

/-- The cleaned first line: both `replace` chains applied to `lines[0]`. -/
def cleanSubjectLine (l : Text) : Text := stripLabel (stripMdClose (stripMdOpen l))

/-- `if (message.length > 100) message = message.substring(0, 97) + '...'`. -/
def capSubject (m : Text) : Text :=
  if m.length > 100 then m.take 97 ++ txt "..." else m

/-- `lines[i].startsWith('# ')`. -/
def startsHashSpace (l : Text) : Bool :=
  match l with
  | '#' :: ' ' :: _ => true
  | _ => false

/-- `lines[i].match(/^[-=]{3,}$/)`: the whole line is three or more `-`/`=`. -/
def isRuleLine (l : Text) : Bool :=
  decide (3 ≤ l.length) && l.all (fun c => c = '-' || c = '=')

/-- `lines[i].replace(/^[-*+] /, '')`. -/
def stripBullet (l : Text) : Text :=
  match l with
  | '-' :: ' ' :: rest => rest
  | '*' :: ' ' :: rest => rest
  | '+' :: ' ' :: rest => rest
  | _ => l

/-- The description-assembly loop of `generateCommitMessage`: skip blank lines
after the subject, drop header/rule lines, strip bullet markers, re-join. -/
def commitDescription (lines : List Text) : Text :=
  match lines with
  | [] => []
  | [_] => []
  | _ :: tail =>
    let rest := tail.dropWhile (fun l => jsTrim l = [])
    let descriptionLines :=
      (rest.filter (fun l => !(startsHashSpace l) && !(isRuleLine l))).map stripBullet
    joinLines descriptionLines

/-- Parsed commit message and description (`{ message, description }`). -/
structure CommitResult where
  message : Text
  description : Text
deriving DecidableEq

/-- The response-parsing tail of `generateCommitMessage` (configService.ts):
subject cleanup plus description assembly, ending in
`{ message: message.trim(), description: description.trim() }`. -/
def parseCommitResponse (response : Text) : CommitResult :=
  let lines := splitLines (jsTrim response)
  let message :=
    match lines with
    | [] => []
    | l0 :: _ => capSubject (cleanSubjectLine l0)
  { message := jsTrim message, description := jsTrim (commitDescription lines) }

/-! ## Provider Clients (`src/worklogGenerator.ts`, `src/configService.ts`)

Each client performs exactly one HTTP request; its outcome is passed in as a
`HttpResult`: the decoded success envelope, an axios error carrying a response
(`status` plus the `JSON.stringify`-ed body), or any other thrown error
(transport failure, etc.) carrying just a message. -/

/-- `parts[i]` of a Gemini candidate's `content`. -/
structure GeminiPart where
  text : Text
deriving DecidableEq

/-- `content` of a Gemini candidate. -/
structure GeminiContent where
  parts : List GeminiPart
deriving DecidableEq

/-- One entry of `response.data.candidates`. -/
structure GeminiCandidate where
  content : GeminiContent
deriving DecidableEq

/-- `response.data` of the Gemini generation endpoint. -/
structure GeminiEnv where
  candidates : List GeminiCandidate
deriving DecidableEq

/-- `message` of an OpenAI-shaped choice. -/
structure OpenAIMessage where
  content : Text
deriving DecidableEq

/-- One entry of `response.data.choices`. -/
structure OpenAIChoice where
  message : OpenAIMessage
deriving DecidableEq

/-- `response.data` of an OpenAI-compatible chat-completions endpoint. -/
structure OpenAIEnv where
  choices : List OpenAIChoice
deriving DecidableEq

/-- Outcome of the single HTTP request a provider client performs. -/
inductive HttpResult (ε : Type) where
  | ok (env : ε)
  | httpError (status : Nat) (body : Text)
  | netFailure (msg : Text)
deriving DecidableEq

/-- Decimal rendering of a status code inside a template literal. -/
def natText (n : Nat) : Text := txt (toString n)

/-- V8's `TypeError` message for reading a property of `undefined`, thrown by
`candidates[0].content` / `choices[0].message` when the list is empty. -/
def typeErrorUndefinedReading (prop : String) : Text :=
  txt "Cannot read properties of undefined (reading \x27" ++ txt prop ++ txt "\x27)"

/-- `callGeminiApi(prompt, apiKey)` from `src/worklogGenerator.ts` (the
configService.ts copy is identical): extract
`response.data.candidates[0].content.parts[0].text`; on an axios error with a
response throw `Gemini API error: status - body`; wrap every other thrown
error (including the `TypeError` from an empty candidate list) as
`Failed to call Gemini API: message`. -/
def callGeminiApi (_prompt _apiKey : Text) (r : HttpResult GeminiEnv) : Except Text Text :=
  match r with
  | .ok env =>
    match env.candidates with
    | [] => .error (txt "Failed to call Gemini API: " ++ typeErrorUndefinedReading "content")
    | c :: _ =>
      match c.content.parts with
      | [] => .error (txt "Failed to call Gemini API: " ++ typeErrorUndefinedReading "text")
      | p :: _ => .ok p.text
  | .httpError status body =>
    .error (txt "Gemini API error: " ++ natText status ++ txt " - " ++ body)
  | .netFailure msg => .error (txt "Failed to call Gemini API: " ++ msg)

/-- `callOpenAiApi(prompt, apiKey)` (worklogGenerator.ts / configService.ts). -/
def callOpenAiApi (_prompt _apiKey : Text) (r : HttpResult OpenAIEnv) : Except Text Text :=
  match r with
  | .ok env =>
    match env.choices with
    | [] => .error (txt "Failed to call OpenAI API: " ++ typeErrorUndefinedReading "message")
    | c :: _ => .ok c.message.content
  | .httpError status body =>
    .error (txt "OpenAI API error: " ++ natText status ++ txt " - " ++ body)
  | .netFailure msg => .error (txt "Failed to call OpenAI API: " ++ msg)

/-- `callLocalLlmApi(prompt, baseUrl, modelName)` (worklogGenerator.ts /
configService.ts). -/
def callLocalLlmApi (_prompt _baseUrl _modelName : Text) (r : HttpResult OpenAIEnv) :
    Except Text Text :=
  match r with
  | .ok env =>
    match env.choices with
    | [] => .error (txt "Failed to call Local LLM API: " ++ typeErrorUndefinedReading "message")
    | c :: _ => .ok c.message.content
  | .httpError status body =>
    .error (txt "Local LLM API error: " ++ natText status ++ txt " - " ++ body)
  | .netFailure msg => .error (txt "Failed to call Local LLM API: " ++ msg)

/-! ## Generation entry points (`generateWorklog`, `generateCommitMessage`) -/

/-- The `worklogGenerator` configuration values read at the top of each entry
point (empty strings model missing settings — JavaScript falsiness). -/
structure ExtensionConfig where
  geminiApiKey : Text
  openaiApiKey : Text
  localLlmBaseUrl : Text
  localLlmModelName : Text
deriving DecidableEq

/-- The outcomes of whichever single HTTP request the entry point may issue. -/
structure NetWorld where
  gemini : HttpResult GeminiEnv
  openai : HttpResult OpenAIEnv
  localLlm : HttpResult OpenAIEnv

/-- `generateWorklog(changes, llmProvider, worklogStyle)` from
`src/worklogGenerator.ts`.  Returns the surfaced result (the outer catch
wraps every thrown error as `Failed to generate worklog: ...`) paired with
the number of HTTP requests performed. -/
def generateWorklog (cfg : ExtensionConfig) (changes llmProvider worklogStyle : Text)
    (net : NetWorld) : Except Text Text × Nat :=
  if llmProvider = txt "gemini" ∧ cfg.geminiApiKey = [] then
    (.error (txt "Failed to generate worklog: Gemini API key not configured. Please add it in the extension settings."), 0)
  else if llmProvider = txt "openai" ∧ cfg.openaiApiKey = [] then
    (.error (txt "Failed to generate worklog: OpenAI API key not configured. Please add it in the extension settings."), 0)
  else if llmProvider = txt "local" ∧ cfg.localLlmBaseUrl = [] then
    (.error (txt "Failed to generate worklog: Local LLM Base URL not configured. Please add it in the extension settings."), 0)
  else
    let prompt := createPrompt changes worklogStyle
    let res :=
      if llmProvider = txt "gemini" then callGeminiApi prompt cfg.geminiApiKey net.gemini
      else if llmProvider = txt "openai" then callOpenAiApi prompt cfg.openaiApiKey net.openai
      else callLocalLlmApi prompt cfg.localLlmBaseUrl cfg.localLlmModelName net.localLlm
    (res.mapError (fun m => txt "Failed to generate worklog: " ++ m), 1)

/-- `generateCommitMessage(changes, llmProvider)` from `src/configService.ts`:
same provider validation and dispatch, then the response-parsing tail; the
outer catch wraps every thrown error as
`Failed to generate commit message: ...`. -/
def generateCommitMessage (cfg : ExtensionConfig) (changes llmProvider : Text)
    (net : NetWorld) : Except Text CommitResult × Nat :=
  if llmProvider = txt "gemini" ∧ cfg.geminiApiKey = [] then
    (.error (txt "Failed to generate commit message: Gemini API key not configured. Please add it in the extension settings."), 0)
  else if llmProvider = txt "openai" ∧ cfg.openaiApiKey = [] then
    (.error (txt "Failed to generate commit message: OpenAI API key not configured. Please add it in the extension settings."), 0)
  else if llmProvider = txt "local" ∧ cfg.localLlmBaseUrl = [] then
    (.error (txt "Failed to generate commit message: Local LLM Base URL not configured. Please add it in the extension settings."), 0)
  else
    let prompt := createCommitMessagePrompt changes
    let res :=
      if llmProvider = txt "gemini" then callGeminiApi prompt cfg.geminiApiKey net.gemini
      else if llmProvider = txt "openai" then callOpenAiApi prompt cfg.openaiApiKey net.openai
      else callLocalLlmApi prompt cfg.localLlmBaseUrl cfg.localLlmModelName net.localLlm
    match res with
    | .ok response => (.ok (parseCommitResponse response), 1)
    | .error m => (.error (txt "Failed to generate commit message: " ++ m), 1)

/-! ## Template Filler (`src/prTemplateService.ts`)

`cleanupTemplate` is a chain of JavaScript regex replacements.  Each global
replacement is modelled by `scanReplaceAux`, a left-to-right non-overlapping
scan; `fuel` is a structural recursion bound that starts at the input length
and never runs out, since every step consumes at least one character. -/

/-- Executable prefix test (JavaScript `startsWith`). -/
def textIsPre : Text → Text → Bool
  | [], _ => true
  | _ :: _, [] => false
  | a :: as, b :: bs => a == b && textIsPre as bs

/-- Executable substring test (JavaScript `includes`). -/
def textIncl (pat : Text) : Text → Bool
  | [] => decide (pat = [])
  | c :: rest => textIsPre pat (c :: rest) || textIncl pat rest

/-- `l` ends with a newline (used for the line-start status of the `m` flag). -/
def endsNl (l : Text) : Bool :=
  match l.reverse with
  | '\n' :: _ => true
  | _ => false

/-- One pass of JavaScript global regex replacement.  The matcher sees the
current position (plus whether it is at a line start, for `^` under `/m`) and
returns `(characters consumed (≥ 1), replacement, line-start status after the
consumed characters)`, or `none`. -/
def scanReplaceAux (M : Bool → Text → Option (Nat × Text × Bool)) :
    Nat → Bool → Text → Text
  | 0, _, _ => []
  | _ + 1, _, [] => []
  | fuel + 1, atStart, c :: rest =>
    match M atStart (c :: rest) with
    | some (k, rep, st) => rep ++ scanReplaceAux M fuel st (rest.drop (k - 1))
    | none => c :: scanReplaceAux M fuel (c == '\n') rest

/-- `str.replace(regex-with-g-flag, ...)` for the matcher `M`. -/
def scanReplace (M : Bool → Text → Option (Nat × Text × Bool)) (l : Text) : Text :=
  scanReplaceAux M l.length true l

/-- `/([^\n])\n(#{1,6}\s)/g → '$1\n\n$2'` (blank line before headers). -/
def mBlankBeforeHeader (_ : Bool) (l : Text) : Option (Nat × Text × Bool) :=
  match l with
  | a :: '\n' :: rest =>
    if a = '\n' then none
    else
      let hashes := rest.takeWhile (· = '#')
      if 1 ≤ hashes.length ∧ hashes.length ≤ 6 then
        match rest.drop hashes.length with
        | w :: _ =>
          if jsWs w then
            some (2 + hashes.length + 1, a :: '\n' :: '\n' :: (hashes ++ [w]), w == '\n')
          else none
        | [] => none
      else none
  | _ => none

/-- `/(#{1,6}\s[^\n]+)\n([^#\n])/g → '$1\n\n$2'` (blank line after headers). -/
def mBlankAfterHeader (_ : Bool) (l : Text) : Option (Nat × Text × Bool) :=
  let hashes := l.takeWhile (· = '#')
  if 1 ≤ hashes.length ∧ hashes.length ≤ 6 then
    match l.drop hashes.length with
    | w :: rest =>
      if jsWs w then
        let body := rest.takeWhile (· ≠ '\n')
        if body = [] then none
        else
          match rest.drop body.length with
          | '\n' :: c :: _ =>
            if c = '#' ∨ c = '\n' then none
            else
              some (hashes.length + 1 + body.length + 2,
                    (hashes ++ w :: body) ++ '\n' :: '\n' :: [c], false)
          | _ => none
      else none
    | [] => none
  else none

/-- `/^-\s*\[([x ])\]\s*/gm → '- [$1] '` (checkbox normalization). -/
def mCheckbox (atStart : Bool) (l : Text) : Option (Nat × Text × Bool) :=
  if atStart then
    match l with
    | '-' :: rest =>
      let ws1 := rest.takeWhile jsWs
      match rest.drop ws1.length with
      | '[' :: x :: ']' :: rest2 =>
        if x = 'x' ∨ x = ' ' then
          let ws2 := rest2.takeWhile jsWs
          some (1 + ws1.length + 3 + ws2.length, txt "- [" ++ x :: txt "] ", endsNl ws2)
        else none
      | _ => none
    | _ => none
  else none

/-- `/^\*\s+/gm → '* '` (bullet spacing). -/
def mStarSpacing (atStart : Bool) (l : Text) : Option (Nat × Text × Bool) :=
  if atStart then
    match l with
    | '*' :: rest =>
      let ws := rest.takeWhile jsWs
      if ws = [] then none
      else some (1 + ws.length, txt "* ", endsNl ws)
    | _ => none
  else none

/-- `/([^\n*-])\n([*-]\s)/gm → '$1\n\n$2'` (blank line before bullet lists). -/
def mBlankBeforeBullet (_ : Bool) (l : Text) : Option (Nat × Text × Bool) :=
  match l with
  | a :: '\n' :: b :: w :: _ =>
    if a = '\n' ∨ a = '*' ∨ a = '-' then none
    else if (b = '*' ∨ b = '-') ∧ jsWs w then
      some (4, a :: '\n' :: '\n' :: b :: [w], w == '\n')
    else none
  | _ => none

/-- `/\n{3,}/g → '\n\n'` (collapse runs of three or more newlines; the
greedy match consumes the entire leading newline run). -/
def mCollapse (_ : Bool) (l : Text) : Option (Nat × Text × Bool) :=
  match l with
  | a :: b :: c :: rest =>
    if a = '\n' ∧ b = '\n' ∧ c = '\n' then
      some (3 + (rest.takeWhile (fun x => x == '\n')).length, txt "\n\n", true)
    else none
  | _ => none

/-- `/(N\/A|None)\n([^#\n])/g → '$1\n\n$2'` (alternatives in source
order; they can never both match since their second characters differ). -/
def mNASpacing (_ : Bool) (l : Text) : Option (Nat × Text × Bool) :=
  match l with
  | a :: b :: c :: d :: rest =>
    if a = 'N' ∧ b = '/' ∧ c = 'A' ∧ d = '\n' then
      match rest with
      | e :: _ =>
        if e = '#' ∨ e = '\n' then none else some (5, txt "N/A\n\n" ++ [e], false)
      | [] => none
    else if a = 'N' ∧ b = 'o' ∧ c = 'n' ∧ d = 'e' then
      match rest with
      | e :: f :: _ =>
        if e = '\n' then
          if f = '#' ∨ f = '\n' then none else some (6, txt "None\n\n" ++ [f], false)
        else none
      | _ => none
    else none
  | _ => none

/-- `cleaned.replace(/^```markdown\s*/i, '')`. -/
def stripFenceMarkdown (l : Text) : Text :=
  if (l.take 11).map lcase = txt "```markdown" then (l.drop 11).dropWhile jsWs else l

/-- `cleaned.replace(/^```\s*/i, '')`. -/
def stripFenceOpen (l : Text) : Text :=
  if l.take 3 = txt "```" then (l.drop 3).dropWhile jsWs else l

/-- `cleaned.replace(/\s*```\s*$/i, '')`: the leftmost match of this
end-anchored pattern removes a trailing fence together with the whitespace
around it. -/
def stripFenceClose (l : Text) : Text :=
  let r1 := trimRight l
  if r1.reverse.take 3 = txt "```" then trimRight (r1.reverse.drop 3).reverse else l

/-- `cleanupTemplate(template)` from `src/prTemplateService.ts`: trim, strip
code-fence wrappers, the six spacing normalizations, newline collapsing, and
a final trim, in source order. -/
def cleanupTemplate (template : Text) : Text :=
  let c0 := jsTrim template
  let c1 := stripFenceMarkdown c0
  let c2 := stripFenceOpen c1
  let c3 := stripFenceClose c2
  let c4 := scanReplace mBlankBeforeHeader c3
  let c5 := scanReplace mBlankAfterHeader c4
  let c6 := scanReplace mCheckbox c5
  let c7 := scanReplace mStarSpacing c6
  let c8 := scanReplace mBlankBeforeBullet c7
  let c9 := scanReplace mCollapse c8
  let c10 := scanReplace mNASpacing c9
  jsTrim c10

/-- `styleInstructions` of `fillTemplateWithAI` (worklogStyle `technical`
versus anything else). -/
def prStyleInstructions (worklogStyle : Text) : Text :=
  if worklogStyle = txt "technical" then
    txt "**WRITING STYLE: TECHNICAL**\n- Use technical terminology and be specific about implementation details\n- Include file names, function names, and class names where relevant\n- Add small code snippets (1-3 lines max) when they help illustrate changes\n- Mention technical concepts like APIs, database changes, algorithms\n- Example: \"Updated `UserService.authenticate()` to use bcrypt hashing instead of MD5\"\n- Example: \"Modified `config/database.ts` to add connection pooling (max: 20)\"\n- Be precise about what was changed at the code level"
  else
    txt "**WRITING STYLE: BUSINESS**\n- Use plain, non-technical language that stakeholders can understand\n- Focus on user-facing changes and business value\n- Describe what the change does for users, not how it\x27s implemented\n- Avoid mentioning file names, functions, or technical implementation details\n- Example: \"Improved login security for better user data protection\"\n- Example: \"Enhanced performance for faster page loading\"\n- Focus on the \"why\" and \"what\" rather than the \"how\""

/-- The commit-message context block:
`commitMessages ? `...\n${commitMessages.join('\n')}\n` : ''`. -/
def prCommitBlock (commitMessages : Option (List Text)) : Text :=
  match commitMessages with
  | some msgs =>
    txt "**Commit Messages (for context only, do NOT list these in the PR):**\n"
      ++ joinLines msgs ++ txt "\n"
  | none => []

/-- The prompt template literal of `fillTemplateWithAI`. -/
def prTemplatePrompt (worklogStyle templateContent worklogContent : Text)
    (commitMessages : Option (List Text)) : Text :=
  txt "You are an expert at filling GitHub Pull Request templates. Your task is to carefully analyze the PR template structure and fill it with accurate information based on the changes provided.\n\n**CRITICAL RULES:**\n1. **Read the Template Carefully**: Understand every section - Description, Summary, Changes Made, Type of Change checkboxes, Test Plan, etc.\n2. **Preserve ALL Template Structure**: Keep every section header, checkbox, markdown formatting exactly as-is\n3. **Fill Every Section Properly**:\n   - **Description/Summary sections**: Write a brief, flowing paragraph (2-4 sentences) - NO bullet points\n   - **Changes Made/What\x27s Changed sections**: Use detailed bullet points (5-8 bullets) with one specific change per bullet\n   - **Test Plan sections**: Provide numbered or bulleted testing steps\n   - **Breaking Changes sections**: Fill if applicable, otherwise write \"N/A\" or \"None\"\n4. **DO NOT mention individual commit messages** - summarize the overall changes\n5. **Remove placeholder text**: Delete \"Describe...\", \"Explain...\", example text, comments like \"<!-- ... -->\"\n6. **Smart Handling**: If a section doesn\x27t apply, write \"N/A\" or \"None\" - don\x27t leave template instructions visible\n\n**WRITING STYLE TO FOLLOW:**\n"
    ++ prStyleInstructions worklogStyle
    ++ txt "\n\n**CRITICAL**: The writing style above applies to BOTH description paragraphs AND bullet points in Changes Made section.\n\n**CHECKBOX FILLING INSTRUCTIONS - EXTREMELY IMPORTANT:**\nThis is the MOST CRITICAL part - you MUST properly mark checkboxes:\n\n1. **Find ALL checkbox sections** in the template (they look like - [ ] or - [x])\n2. **For EACH checkbox**, carefully read what it\x27s asking\n3. **Analyze the changes** and determine if that checkbox applies\n4. **Mark with [x]** if it applies: - [x] New feature\n5. **Leave as [ ]** ONLY if it definitely does NOT apply: - [ ] Breaking change\n\n**Common checkbox patterns to look for:**\n- **Type of change**: Bug fix / New feature / Breaking change / Documentation update\n  - **Bug fix**: If fixing bugs, errors, or issues → Mark [x]\n  - **New feature**: If adding new functionality, capabilities, or features → Mark [x]\n  - **Breaking change**: If changing existing APIs, removing features, or requiring migration → Mark [x]\n  - **Documentation update**: If only updating docs → Mark [x]\n  - **Dependency updates/maintenance**: Usually falls under \"Bug fix\" (for security/stability) or leave unchecked if none apply\n  - **IMPORTANT**: You MUST check at least ONE \"Type of change\" checkbox. If unsure, pick the closest match.\n\n- **Testing checkboxes**: Unit tests / Integration tests / Manual testing\n  - If changes include test files or testing code, mark appropriate boxes\n  - If no tests were added/changed, leave unchecked\n\n- **Code quality**: Code follows guidelines / Self-review done / Comments added\n  - These are usually safe to mark [x] for any code changes\n  - Mark \"Code follows guidelines\" if you made code changes\n  - Mark \"Self-review done\" if you reviewed the changes\n\n- **Documentation**: Documentation updated / No documentation needed\n  - If you updated docs or README, mark \"updated\"\n  - If changes don\x27t need documentation, mark \"not needed\"\n  - One of these should typically be checked\n\n**EXAMPLE of proper checkbox filling:**\n\nBEFORE (template):\n## Type of change\n- [ ] Bug fix\n- [ ] New feature\n- [ ] Breaking change\n\nAFTER (if adding a new feature):\n## Type of change\n- [ ] Bug fix\n- [x] New feature\n- [ ] Breaking change\n\n**DO NOT leave all checkboxes unchecked!** You MUST analyze and mark the appropriate ones based on the actual changes.\n\n**Changes Made:**\n"
    ++ worklogContent
    ++ txt "\n\n"
    ++ prCommitBlock commitMessages
    ++ txt "\n\n**PR Template to Fill:**\n"
    ++ templateContent
    ++ txt "\n\n**Output the filled template directly (no explanations, no extra text, just the filled template):**"

/-- `fillTemplateWithAI(templateContent, worklogContent, commitMessages)`:
build the prompt, call the configured provider (modelled by the `callModel`
oracle), clean up the reply; the surrounding `try/catch` returns the original
template content on any error. -/
def fillTemplateWithAI (worklogStyle templateContent worklogContent : Text)
    (commitMessages : Option (List Text)) (callModel : Text → Except Text Text) : Text :=
  match callModel (prTemplatePrompt worklogStyle templateContent worklogContent commitMessages) with
  | .ok filledTemplate => cleanupTemplate filledTemplate
  | .error _ => templateContent

/-- A Gemini candidate as read by the PR-template client (with the
`finishReason` it only logs about). -/
structure GeminiCandidateT where
  content : GeminiContent
  finishReason : Option Text
deriving DecidableEq

/-- `response.data` as read by `callGeminiForTemplate`. -/
structure GeminiEnvT where
  candidates : List GeminiCandidateT
deriving DecidableEq

/-- axios's own error message for a failed status code (no local catch exists
in the template clients, so this propagates raw). -/
def axiosStatusMsg (status : Nat) : Text :=
  txt "Request failed with status code " ++ natText status

/-- `callGeminiForTemplate(prompt)` from `src/prTemplateService.ts`: no local
`try/catch`; an empty candidate list throws the raw `TypeError` at the first
property access on the undefined candidate, which is the `finishReason`
truncation check; a non-`STOP` `finishReason` is only logged and the partial
text still returned. -/
def callGeminiForTemplate (_apiKey : Text) (r : HttpResult GeminiEnvT) : Except Text Text :=
  match r with
  | .ok env =>
    match env.candidates with
    | [] => .error (typeErrorUndefinedReading "finishReason")
    | c :: _ =>
      match c.content.parts with
      | [] => .error (typeErrorUndefinedReading "text")
      | p :: _ => .ok p.text
  | .httpError status _ => .error (axiosStatusMsg status)
  | .netFailure msg => .error msg

/-! ## Response Parser for worklogs (`formatWorklogContent`,
`src/worklogPanel.ts`) -/

/-- `htmlContent.includes('DSU SCRIPT') || htmlContent.includes('I worked on')`
— both checks are case-sensitive. -/
def dsuGuard (htmlContent : Text) : Bool :=
  textIncl (txt "DSU SCRIPT") htmlContent || textIncl (txt "I worked on") htmlContent

/-- `htmlContent.split(/DSU SCRIPT|SCRIPT:/i)` (fuelled structural scan; the
alternatives are tried in source order at each position, case-insensitively). -/
def dsuSplitAux : Nat → Text → List Text
  | 0, _ => [[]]
  | _ + 1, [] => [[]]
  | fuel + 1, c :: rest =>
    if ((c :: rest).take 10).map lcase = txt "dsu script" then
      [] :: dsuSplitAux fuel ((c :: rest).drop 10)
    else if ((c :: rest).take 7).map lcase = txt "script:" then
      [] :: dsuSplitAux fuel ((c :: rest).drop 7)
    else
      match dsuSplitAux fuel rest with
      | [] => [[c]]
      | h :: t => (c :: h) :: t

/-- `htmlContent.split(/DSU SCRIPT|SCRIPT:/i)`. -/
def dsuSplit (l : Text) : List Text := dsuSplitAux l.length l

/-- A global literal-string replacement (`replace(/literal/g, '')`). -/
def mLit (pat : Text) (_ : Bool) (l : Text) : Option (Nat × Text × Bool) :=
  if pat ≠ [] ∧ l.take pat.length = pat then some (pat.length, [], endsNl pat) else none

/-- `s.replace(/pat/g, '')` for a literal pattern. -/
def replaceAll (pat l : Text) : Text := scanReplace (mLit pat) l

/-- `worklogSection.replace(/\*\*WORKLOG BULLETS:\*\*/g, '')
.replace(/WORKLOG BULLETS:/g, '').trim()`. -/
def cleanWorklogSection (s : Text) : Text :=
  jsTrim (replaceAll (txt "WORKLOG BULLETS:") (replaceAll (txt "**WORKLOG BULLETS:**") s))

/-- Head of the two-section HTML template returned on a successful split. -/
def fmtSectionHead : Text :=
  txt "\n          <div class=\"worklog-section\">\n            <h2>📋 Worklog Bullets</h2>\n            "

/-- Middle of the two-section HTML template. -/
def fmtSectionMid : Text :=
  txt "\n          </div>\n          <div class=\"dsu-section\">\n            <h2>🗣️ Daily Stand-up Script</h2>\n            <div class=\"dsu-script\">\n              "

/-- Tail of the two-section HTML template. -/
def fmtSectionTail : Text :=
  txt "\n            </div>\n            <button class=\"button button-secondary\" id=\"copyDsuBtn\">\n              <span class=\"icon\">🎤</span> Copy DSU Script\n            </button>\n          </div>\n        "

/-- The assembled two-section HTML of `formatWorklogContent`. -/
def fmtAssemble (worklogSection dsuSection : Text) : Text :=
  fmtSectionHead ++ cleanWorklogSection worklogSection ++ fmtSectionMid
    ++ dsuSection ++ fmtSectionTail

/-- `formatWorklogContent(htmlContent)` from `src/worklogPanel.ts`. -/
def formatWorklogContent (htmlContent : Text) : Text :=
  if dsuGuard htmlContent then
    match dsuSplit htmlContent with
    | s0 :: s1 :: _ => fmtAssemble s0 s1
    | _ => htmlContent
  else htmlContent

/-! ## Model-listing cache (`src/modelService.ts`) -/

/-- `ModelInfo { id, name, provider }`. -/
structure ModelInfo where
  id : Text
  name : Text
  provider : Text
deriving DecidableEq

/-- The module-level `modelCache` `Map` (newest entry first; `set` shadows). -/
abbrev ModelCache := List (Text × List ModelInfo)

/-- `getCacheKey(provider, apiKey)` — note only the first 8 characters of the
credential enter the key. -/
def getCacheKey (provider apiKey : Text) : Text :=
  provider ++ txt ":" ++ apiKey.take 8

/-- `modelCache.get(key)`. -/
def cacheGet (cache : ModelCache) (k : Text) : Option (List ModelInfo) :=
  match cache.find? (fun e => decide (e.1 = k)) with
  | some e => some e.2
  | none => none

/-- `getCachedModels(provider, apiKey)` (the `|| null` maps a missing entry to
`none`; an empty cached array is still a hit, as in the JavaScript). -/
def getCachedModels (cache : ModelCache) (provider apiKey : Text) :
    Option (List ModelInfo) :=
  cacheGet cache (getCacheKey provider apiKey)

/-- `setCachedModels(provider, apiKey, models)`. -/
def setCachedModels (cache : ModelCache) (provider apiKey : Text)
    (models : List ModelInfo) : ModelCache :=
  (getCacheKey provider apiKey, models) :: cache

/-- One record of the Gemini model-listing response. -/
structure GeminiRawModel where
  name : Text
  displayName : Option Text
  supportedGenerationMethods : Option (List Text)

/-- `response.data` of the Gemini model listing. -/
structure GeminiListEnv where
  models : List GeminiRawModel

/-- JavaScript `str.replace(stringPattern, rep)`: first occurrence only. -/
def replaceFirst (pat rep : Text) : Text → Text
  | [] => []
  | c :: rest =>
    if pat ≠ [] ∧ (c :: rest).take pat.length = pat then
      rep ++ (c :: rest).drop pat.length
    else c :: replaceFirst pat rep rest

/-- `modelId.match(/gemini-1\.[0-4]/)`: some occurrence of `gemini-1.` is
followed by a digit `0`–`4`. -/
def hasGemini1Old : Text → Bool
  | [] => false
  | c :: rest =>
    (decide ((c :: rest).take 9 = txt "gemini-1.") &&
      match (c :: rest).drop 9 with
      | d :: _ => decide ('0' ≤ d ∧ d ≤ '4')
      | [] => false)
    || hasGemini1Old rest

/-- The substring blocklist of the Gemini model filter. -/
def geminiBlockPatterns : List Text :=
  [txt "embedding", txt "aqa", txt "bison", txt "vision", txt "thinking",
   txt "nano", txt "preview", txt "tts", txt "audio", txt "video"]

/-- The `.filter(...)` predicate of `fetchGeminiModels`. -/
def geminiKeep (m : GeminiRawModel) : Bool :=
  let modelId := (replaceFirst (txt "models/") [] m.name).map lcase
  (match m.supportedGenerationMethods with
   | some ms => ms.any (fun s => decide (s = txt "generateContent"))
   | none => false)
  && textIsPre (txt "gemini-") modelId
  && !hasGemini1Old modelId
  && textIncl (txt "flash") modelId
  && !(geminiBlockPatterns.any (fun p => textIncl p modelId))

/-- The `.map(...)` of `fetchGeminiModels` (`displayName ||` falls back on an
empty display name too). -/
def geminiToInfo (m : GeminiRawModel) : ModelInfo :=
  let stripped := replaceFirst (txt "models/") [] m.name
  { id := stripped,
    name := match m.displayName with
            | some d => if d = [] then stripped else d
            | none => stripped,
    provider := txt "gemini" }

/-- Code-point comparison standing in for `localeCompare`. -/
def textLe : Text → Text → Bool
  | [], _ => true
  | _ :: _, [] => false
  | a :: as, b :: bs => if a = b then textLe as bs else decide (a < b)

/-- Insertion step of the comparator sort. -/
def sortInsert (le : ModelInfo → ModelInfo → Bool) (x : ModelInfo) :
    List ModelInfo → List ModelInfo
  | [] => [x]
  | y :: ys => if le x y then x :: y :: ys else y :: sortInsert le x ys

/-- Model of `Array.prototype.sort(cmp)` as an insertion sort. -/
def sortBy (le : ModelInfo → ModelInfo → Bool) : List ModelInfo → List ModelInfo
  | [] => []
  | x :: xs => sortInsert le x (sortBy le xs)

/-- `fetchGeminiModels(apiKey)`: cache lookup, one listing request on a miss,
filter/map/sort, the two emptiness guards, one `isGeminiFree` probe per
surviving model (its boolean outcome is the `freeCheck` oracle), then cache
and return.  Result: surfaced value, updated cache, number of HTTP requests
performed. -/
def fetchGeminiModels (cache : ModelCache) (apiKey : Text)
    (listing : HttpResult GeminiListEnv) (freeCheck : Text → Bool) :
    Except Text (List ModelInfo) × ModelCache × Nat :=
  match getCachedModels cache (txt "gemini") apiKey with
  | some cached => (.ok cached, cache, 0)
  | none =>
    match listing with
    | .ok env =>
      let models :=
        sortBy (fun a b => textLe b.id a.id) ((env.models.filter geminiKeep).map geminiToInfo)
      if models = [] then
        (.error (txt "No compatible Gemini models found for this API key"), cache, 1)
      else
        let freeModels := models.filter (fun m => freeCheck m.id)
        if freeModels = [] then
          (.error (txt "No free Gemini models available for this API key"), cache,
           1 + models.length)
        else
          (.ok freeModels, setCachedModels cache (txt "gemini") apiKey freeModels,
           1 + models.length)
    | .httpError status _ => (.error (axiosStatusMsg status), cache, 1)
    | .netFailure msg => (.error msg, cache, 1)

/-- One record of the OpenAI model-listing response. -/
structure OpenAIRawModel where
  id : Text

/-- `response.data` of the OpenAI model listing. -/
structure OpenAIListEnv where
  data : List OpenAIRawModel

/-- The substring blocklist of the OpenAI model filter. -/
def openaiBlockPatterns : List Text :=
  [txt "embedding", txt "davinci", txt "curie", txt "babbage", txt "ada",
   txt "instruct", txt ":ft-", txt "realtime", txt "audio", txt "whisper",
   txt "tts", txt "dall-e", txt "vision", txt "0301", txt "0314", txt "0613"]

/-- `modelId.match(/^gpt-3[^.]/)`. -/
def gpt3NotDot (l : Text) : Bool :=
  match l.drop 5 with
  | c :: _ => decide (l.take 5 = txt "gpt-3") && decide (c ≠ '.')
  | [] => false

/-- The `.filter(...)` predicate of `fetchOpenAIModels`. -/
def openaiKeep (m : OpenAIRawModel) : Bool :=
  let modelId := m.id.map lcase
  textIncl (txt "gpt") modelId
  && !(openaiBlockPatterns.any (fun p => textIncl p modelId))
  && !gpt3NotDot modelId
  && (textIncl (txt "gpt-4") modelId || textIncl (txt "gpt-3.5") modelId)

/-- `fetchOpenAIModels(apiKey)` (caches even an empty filtered list). -/
def fetchOpenAIModels (cache : ModelCache) (apiKey : Text)
    (listing : HttpResult OpenAIListEnv) :
    Except Text (List ModelInfo) × ModelCache × Nat :=
  match getCachedModels cache (txt "openai") apiKey with
  | some cached => (.ok cached, cache, 0)
  | none =>
    match listing with
    | .ok env =>
      let models :=
        sortBy (fun a b => textLe b.id a.id)
          ((env.data.filter openaiKeep).map
            (fun m => { id := m.id, name := m.id, provider := txt "openai" }))
      (.ok models, setCachedModels cache (txt "openai") apiKey models, 1)
    | .httpError status _ => (.error (axiosStatusMsg status), cache, 1)
    | .netFailure msg => (.error msg, cache, 1)

/-! ## Spec-side predicates used to state claims -/

/-- Modelled from the spec's words (claim C4): a message that "suggests a
corrective action (switch model, re-enter key)".  Used only to compare the
spec's promise against the messages the code actually builds. -/
def mentionsCorrectiveAction (msg : Text) : Bool :=
  textIncl (txt "switch") msg || textIncl (txt "re-enter") msg

/-- `l` starts with two newlines. -/
def startsTwoNl (l : Text) : Bool :=
  match l with
  | a :: b :: _ => a == '\n' && b == '\n'
  | _ => false

/-- Three consecutive newlines occur somewhere in `l`. -/
def hasTripleNl : Text → Bool
  | [] => false
  | c :: rest => (c == '\n' && startsTwoNl rest) || hasTripleNl rest

/-- Length of the leading newline run of `l`. -/
def leadNl (l : Text) : Nat := (l.takeWhile (fun c => c == '\n')).length

/-! ## Shared lemmas on trimming -/

theorem dropWhile_head_false {p : Char → Bool} {l : Text} {c : Char} {t : Text}
    (h : l.dropWhile p = c :: t) : p c = false := by
  have h2 := List.head_dropWhile_not p l (h ▸ List.cons_ne_nil c t)
  simp only [h, List.head_cons] at h2
  exact h2

theorem dropWhile_dropWhile (p : Char → Bool) (l : Text) :
    (l.dropWhile p).dropWhile p = l.dropWhile p := by
  cases h : l.dropWhile p with
  | nil => rfl
  | cons c t =>
    rw [List.dropWhile_cons, dropWhile_head_false h]
    simp

theorem trimRight_isPre (l : Text) : trimRight l <+: l := by
  have h : l.reverse.dropWhile jsWs <:+ l.reverse := List.dropWhile_suffix jsWs
  have h2 : (l.reverse.dropWhile jsWs).reverse <+: l.reverse.reverse :=
    List.reverse_prefix.mpr h
  simpa [trimRight] using h2

theorem trimLeft_trimRight_of_clean {l : Text}
    (h : ∀ c t, l = c :: t → jsWs c = false) : trimLeft (trimRight l) = trimRight l := by
  cases hr : trimRight l with
  | nil => rfl
  | cons c t =>
    obtain ⟨s, hs⟩ := trimRight_isPre l
    rw [hr] at hs
    have hc : jsWs c = false := h c (t ++ s) (by rw [← hs, List.cons_append])
    unfold trimLeft
    rw [List.dropWhile_cons, hc]
    simp

theorem trimRight_trimRight (l : Text) : trimRight (trimRight l) = trimRight l := by
  unfold trimRight
  rw [List.reverse_reverse, dropWhile_dropWhile]

theorem trimLeft_head_false {l : Text} {c : Char} {t : Text}
    (h : trimLeft l = c :: t) : jsWs c = false :=
  dropWhile_head_false h

theorem jsTrim_idem (l : Text) : jsTrim (jsTrim l) = jsTrim l := by
  unfold jsTrim
  rw [trimLeft_trimRight_of_clean (fun c t h => trimLeft_head_false h),
    trimRight_trimRight]

/-! ## Claim C1 — prompt truncation -/

theorem createPrompt_embeds (changes worklogStyle : Text) :
    ∃ u v, createPrompt changes worklogStyle = u ++ limitedChanges changes ++ v :=
  ⟨txt "\nYou are a professional software developer creating a worklog entry. Analyze the provided code changes and generate the appropriate output.\n\nSTYLE REQUIREMENTS:\n"
      ++ wgStyleInstruction worklogStyle ++ txt "\n\nFORMAT EXAMPLE:\n"
      ++ wgExampleFormat worklogStyle ++ txt "\n\n" ++ wgInstructions worklogStyle
      ++ txt "\n\nCODE CHANGES TO ANALYZE:\n",
    txt "\n\nGenerate the output now:\n", rfl⟩

theorem createCommitMessagePrompt_embeds (changes : Text) :
    ∃ u v, createCommitMessagePrompt changes = u ++ limitedChanges changes ++ v :=
  ⟨txt "\nYou are a professional software developer creating a commit message for code changes. Analyze the provided code changes and generate a concise commit message and description.\n\nREQUIREMENTS:\n- Generate a commit message that is between 1 and 100 characters\n- The commit message should be clear, concise, and descriptive\n- Use imperative mood (e.g., \"Add\", \"Fix\", \"Update\", not \"Added\", \"Fixed\", \"Updated\")\n- Focus on WHAT was changed and WHY, not HOW\n- Do not include issue numbers or ticket references\n- Capitalize the first word and do not end with a period\n- For the description, provide 3-5 bullet points that explain the changes in more detail\n- Each bullet point should start with a dash (-)\n- The description should provide context that isn\x27t obvious from the commit message\n\nEXAMPLE COMMIT MESSAGES:\n- \"Add user authentication feature\"\n- \"Fix null pointer exception in payment processing\"\n- \"Update documentation for API endpoints\"\n- \"Refactor database connection handling\"\n- \"Optimize image loading performance\"\n\nEXAMPLE DESCRIPTIONS:\n- Implemented JWT token-based authentication\n- Added login and registration endpoints\n- Created user session management\n- Updated tests to cover authentication flows\n\nCODE CHANGES TO ANALYZE:\n",
    txt "\n\nGenerate a commit message and description now:\n", rfl⟩

theorem createWorklogPrompt_embeds (changes worklogStyle : Text) :
    ∃ u v, createWorklogPrompt changes worklogStyle = u ++ limitedChanges changes ++ v :=
  ⟨txt "\nYou are a professional software developer creating a worklog entry. Analyze the provided code changes and generate both a detailed worklog and a DSU script.\n\nSTYLE REQUIREMENTS:\n"
      ++ cwStyleInstruction worklogStyle ++ txt "\n\nFORMAT EXAMPLE:\n"
      ++ cwExampleFormat worklogStyle
      ++ txt "\n\nINSTRUCTIONS:\nGenerate exactly two sections:\n\n1. **WORKLOG BULLETS:**\n- Generate only bullet points, no paragraphs or explanations\n- Each bullet point should be concise but descriptive\n- Focus on the most important and meaningful changes\n- Ignore minor formatting changes, whitespace, or trivial updates\n- Maximum 10 bullet points\n- Start each bullet with a dash (-)\n\n2. **DSU SCRIPT:**\n- Write a 2-3 sentence script that starts with \"I worked on...\"\n- Make it conversational and suitable for reading in a daily stand-up call\n- Summarize the key accomplishments in natural language\n- Keep it under 100 words\n\nCODE CHANGES TO ANALYZE:\n",
    txt "\n\nGenerate the worklog and DSU script now:\n", rfl⟩

/-- Claim C1, amended: each of the three prompt builders embeds the change
text unmodified when it has at most 10000 characters; a longer change text is
embedded as exactly its first 10000 characters followed by the
`"...[truncated]"` marker; and the embedded segment differs from the original
text unless the original itself equals its first 10000 characters followed by
the marker (the degenerate case exhibited by the counterexample, which
refutes the claim's "never the full original text"). -/
theorem C1_truncation (changes worklogStyle : Text) :
    (changes.length ≤ 10000 →
      limitedChanges changes = changes ∧
      (∃ u v, createPrompt changes worklogStyle = u ++ changes ++ v) ∧
      (∃ u v, createCommitMessagePrompt changes = u ++ changes ++ v) ∧
      (∃ u v, createWorklogPrompt changes worklogStyle = u ++ changes ++ v)) ∧
    (10000 < changes.length →
      limitedChanges changes = changes.take 10000 ++ truncationMarker ∧
      (∃ u v, createPrompt changes worklogStyle
          = u ++ (changes.take 10000 ++ truncationMarker) ++ v) ∧
      (∃ u v, createCommitMessagePrompt changes
          = u ++ (changes.take 10000 ++ truncationMarker) ++ v) ∧
      (∃ u v, createWorklogPrompt changes worklogStyle
          = u ++ (changes.take 10000 ++ truncationMarker) ++ v) ∧
      (changes ≠ changes.take 10000 ++ truncationMarker →
        limitedChanges changes ≠ changes)) := by
  constructor
  · intro h
    have hfix : limitedChanges changes = changes := by
      unfold limitedChanges
      rw [if_neg (by omega)]
    obtain ⟨u1, v1, h1⟩ := createPrompt_embeds changes worklogStyle
    obtain ⟨u2, v2, h2⟩ := createCommitMessagePrompt_embeds changes
    obtain ⟨u3, v3, h3⟩ := createWorklogPrompt_embeds changes worklogStyle
    exact ⟨hfix, ⟨u1, v1, by rw [h1, hfix]⟩, ⟨u2, v2, by rw [h2, hfix]⟩,
      ⟨u3, v3, by rw [h3, hfix]⟩⟩
  · intro h
    have hfix : limitedChanges changes = changes.take 10000 ++ truncationMarker := by
      unfold limitedChanges
      rw [if_pos (by omega)]
    obtain ⟨u1, v1, h1⟩ := createPrompt_embeds changes worklogStyle
    obtain ⟨u2, v2, h2⟩ := createCommitMessagePrompt_embeds changes
    obtain ⟨u3, v3, h3⟩ := createWorklogPrompt_embeds changes worklogStyle
    refine ⟨hfix, ⟨u1, v1, by rw [h1, hfix]⟩, ⟨u2, v2, by rw [h2, hfix]⟩,
      ⟨u3, v3, by rw [h3, hfix]⟩, ?_⟩
    intro hne
    rw [hfix]
    exact fun hc => hne hc.symm

/-- Witness for C1: a four-character change text is embedded unmodified in
the worklog prompt. -/
theorem C1_truncation_witness :
    ∃ u v, createPrompt (txt "diff") (txt "business") = u ++ txt "diff" ++ v :=
  ((C1_truncation (txt "diff") (txt "business")).1 (by decide)).2.1

/-- Counterexample to claim C1 as stated: the change text
`replicate 10000 'a' ++ "...[truncated]"` is longer than 10000 characters,
yet the built prompt contains the full original text (truncation reproduces
the original verbatim because the original already ends in the marker). -/
theorem C1_counterexample :
    10000 < (List.replicate 10000 'a' ++ truncationMarker : Text).length ∧
    ∃ u v, createPrompt (List.replicate 10000 'a' ++ truncationMarker) (txt "technical")
        = u ++ (List.replicate 10000 'a' ++ truncationMarker) ++ v := by
  have hmark : truncationMarker.length = 14 := by decide
  have hlen : (List.replicate 10000 'a' ++ truncationMarker : Text).length = 10014 := by
    rw [List.length_append, List.length_replicate, hmark]
  have htake : (List.replicate 10000 'a' ++ truncationMarker : Text).take 10000
      = List.replicate 10000 'a' :=
    List.take_left' (List.length_replicate _ _)
  have hfix : limitedChanges (List.replicate 10000 'a' ++ truncationMarker)
      = List.replicate 10000 'a' ++ truncationMarker := by
    unfold limitedChanges
    rw [if_pos (by omega), htake]
  constructor
  · omega
  · obtain ⟨u, v, huv⟩ :=
      createPrompt_embeds (List.replicate 10000 'a' ++ truncationMarker) (txt "technical")
    exact ⟨u, v, by rw [huv, hfix]⟩

/-! ## Claim C2 — commit-subject length -/

/-- Claim C4, amended: every HTTP-error failure of the three provider clients
surfaces as one generic wrapper embedding the provider name, the numeric
status code and the stringified response body; the clients produce no
status-code-specific error kinds and no corrective suggestions. -/
theorem C4_http_errors (p k u m b : Text) (s : Nat) :
    callGeminiApi p k (.httpError s b)
      = .error (txt "Gemini API error: " ++ natText s ++ txt " - " ++ b) ∧
    callOpenAiApi p k (.httpError s b)
      = .error (txt "OpenAI API error: " ++ natText s ++ txt " - " ++ b) ∧
    callLocalLlmApi p u m (.httpError s b)
      = .error (txt "Local LLM API error: " ++ natText s ++ txt " - " ++ b) :=
  ⟨rfl, rfl, rfl⟩

/-- Counterexample to claim C4 as stated: a rate-limited (HTTP 429) Gemini
call surfaces as the generic `Gemini API error: 429 - ...` message, which
suggests no corrective action; HTTP 404 produces the same single wrapper, so
the error is not one of four status-selected kinds. -/
theorem C4_counterexample :
    callGeminiApi (txt "p") (txt "k") (.httpError 429 (txt "quota"))
      = .error (txt "Gemini API error: 429 - quota") ∧
    mentionsCorrectiveAction (txt "Gemini API error: 429 - quota") = false ∧
    callGeminiApi (txt "p") (txt "k") (.httpError 404 (txt "quota"))
      = .error (txt "Gemini API error: 404 - quota") ∧
    mentionsCorrectiveAction (txt "Gemini API error: 404 - quota") = false := by
  exact ⟨rfl, by decide, rfl, by decide⟩

/-! ## Claim C5 — empty response envelopes -/

/-- Claim C5, amended: a zero-candidate envelope makes the worklog client
fail with the generic `Failed to call Gemini API: ...` wrapper — exactly the
wrapper used for transport failures — and makes the PR-template client
propagate the raw `TypeError` (raised at its `finishReason` truncation
check, the first property read on the undefined candidate); no distinct
`EmptyResponseError` exists. -/
theorem C5_empty_candidates (p k m : Text) :
    callGeminiApi p k (.ok ⟨[]⟩)
      = .error (txt "Failed to call Gemini API: "
          ++ typeErrorUndefinedReading "content") ∧
    callGeminiApi p k (.netFailure m)
      = .error (txt "Failed to call Gemini API: " ++ m) ∧
    callGeminiForTemplate k (.ok ⟨[]⟩)
      = .error (typeErrorUndefinedReading "finishReason") ∧
    callOpenAiApi p k (.ok ⟨[]⟩)
      = .error (txt "Failed to call OpenAI API: "
          ++ typeErrorUndefinedReading "message") :=
  ⟨rfl, rfl, rfl, rfl⟩

/-- Counterexample to claim C5 as stated: the error surfaced for a
zero-candidate envelope is literally the same value as the error surfaced for
a transport failure carrying the TypeError text, so the empty-response
failure is not distinct from a network failure. -/
theorem C5_counterexample :
    callGeminiApi (txt "p") (txt "k") (.ok ⟨[]⟩)
      = callGeminiApi (txt "p") (txt "k")
          (.netFailure (typeErrorUndefinedReading "content")) := rfl

/-! ## Claim C6 — configuration guard before any HTTP request -/

/-- Claim C6: calling `generateWorklog` or `generateCommitMessage` with
provider `gemini`/`openai` and an empty API key, or provider `local` and an
empty base URL, fails with an error message naming the missing setting, and
zero HTTP requests are performed. -/
theorem C6_config_guard (cfg : ExtensionConfig) (changes worklogStyle : Text)
    (net : NetWorld) :
    (cfg.geminiApiKey = [] →
      generateWorklog cfg changes (txt "gemini") worklogStyle net
        = (.error (txt "Failed to generate worklog: Gemini API key not configured. Please add it in the extension settings."), 0) ∧
      generateCommitMessage cfg changes (txt "gemini") net
        = (.error (txt "Failed to generate commit message: Gemini API key not configured. Please add it in the extension settings."), 0) ∧
      textIncl (txt "Gemini API key") (txt "Failed to generate worklog: Gemini API key not configured. Please add it in the extension settings.") = true) ∧
    (cfg.openaiApiKey = [] →
      generateWorklog cfg changes (txt "openai") worklogStyle net
        = (.error (txt "Failed to generate worklog: OpenAI API key not configured. Please add it in the extension settings."), 0) ∧
      generateCommitMessage cfg changes (txt "openai") net
        = (.error (txt "Failed to generate commit message: OpenAI API key not configured. Please add it in the extension settings."), 0) ∧
      textIncl (txt "OpenAI API key") (txt "Failed to generate worklog: OpenAI API key not configured. Please add it in the extension settings.") = true) ∧
    (cfg.localLlmBaseUrl = [] →
      generateWorklog cfg changes (txt "local") worklogStyle net
        = (.error (txt "Failed to generate worklog: Local LLM Base URL not configured. Please add it in the extension settings."), 0) ∧
      generateCommitMessage cfg changes (txt "local") net
        = (.error (txt "Failed to generate commit message: Local LLM Base URL not configured. Please add it in the extension settings."), 0) ∧
      textIncl (txt "Local LLM Base URL") (txt "Failed to generate worklog: Local LLM Base URL not configured. Please add it in the extension settings.") = true) := by
  refine ⟨fun h => ⟨?_, ?_, by decide⟩, fun h => ⟨?_, ?_, by decide⟩,
    fun h => ⟨?_, ?_, by decide⟩⟩
  · unfold generateWorklog
    rw [if_pos ⟨rfl, h⟩]
  · unfold generateCommitMessage
    rw [if_pos ⟨rfl, h⟩]
  · unfold generateWorklog
    rw [if_neg (fun hc => absurd hc.1 (by decide)), if_pos ⟨rfl, h⟩]
  · unfold generateCommitMessage
    rw [if_neg (fun hc => absurd hc.1 (by decide)), if_pos ⟨rfl, h⟩]
  · unfold generateWorklog
    rw [if_neg (fun hc => absurd hc.1 (by decide)),
      if_neg (fun hc => absurd hc.1 (by decide)), if_pos ⟨rfl, h⟩]
  · unfold generateCommitMessage
    rw [if_neg (fun hc => absurd hc.1 (by decide)),
      if_neg (fun hc => absurd hc.1 (by decide)), if_pos ⟨rfl, h⟩]

/-- Witness for C6: with every setting empty, the gemini worklog call fails
with the configuration message and performs zero HTTP requests. -/
theorem C6_config_guard_witness :
    generateWorklog ⟨[], [], [], []⟩ (txt "d") (txt "gemini") (txt "business")
        ⟨.netFailure [], .netFailure [], .netFailure []⟩
      = (.error (txt "Failed to generate worklog: Gemini API key not configured. Please add it in the extension settings."), 0) :=
  ((C6_config_guard ⟨[], [], [], []⟩ (txt "d") (txt "business")
      ⟨.netFailure [], .netFailure [], .netFailure []⟩).1 rfl).1

/-! ## Claim C3 — template preservation -/

/-- Claim C3, amended: the Template Filler does not enforce preservation.  On
a successful provider call its output is exactly the model's reply after the
cosmetic cleanup pass, whatever that reply is; only when the provider call
fails is the input template returned byte-identical.  Preservation of the
template is requested in the prompt text but never checked. -/
theorem C3_fill (worklogStyle templateContent worklogContent : Text)
    (commitMessages : Option (List Text)) (callModel : Text → Except Text Text)
    (reply err : Text) :
    (callModel (prTemplatePrompt worklogStyle templateContent worklogContent commitMessages)
        = .ok reply →
      fillTemplateWithAI worklogStyle templateContent worklogContent commitMessages callModel
        = cleanupTemplate reply) ∧
    (callModel (prTemplatePrompt worklogStyle templateContent worklogContent commitMessages)
        = .error err →
      fillTemplateWithAI worklogStyle templateContent worklogContent commitMessages callModel
        = templateContent) := by
  constructor <;> intro h <;> unfold fillTemplateWithAI <;> rw [h]

/-- Witness for C3: a concrete successful reply is returned (cleaned), a
concrete failure returns the template unchanged. -/
theorem C3_fill_witness :
    fillTemplateWithAI (txt "business") (txt "hello world") (txt "w") none
        (fun _ => .ok (txt "reply")) = cleanupTemplate (txt "reply") ∧
    fillTemplateWithAI (txt "business") (txt "hello world") (txt "w") none
        (fun _ => .error (txt "boom")) = txt "hello world" :=
  ⟨(C3_fill (txt "business") (txt "hello world") (txt "w") none
      (fun _ => .ok (txt "reply")) (txt "reply") (txt "boom")).1 rfl,
   (C3_fill (txt "business") (txt "hello world") (txt "w") none
      (fun _ => .error (txt "boom")) (txt "reply") (txt "boom")).2 rfl⟩

/-- Counterexample to claim C3 as stated: the template "hello world" has no
targeted header sections and no checkboxes, so by the claim every one of its
characters must survive byte-identically; yet with a provider reply of
"gotcha" the filler returns "gotcha", dropping the whole template. -/
theorem C3_counterexample :
    fillTemplateWithAI (txt "business") (txt "hello world") (txt "w") none
        (fun _ => .ok (txt "gotcha")) = txt "gotcha" ∧
    (txt "gotcha" : Text) ≠ txt "hello world" := by
  exact ⟨by decide, by decide⟩

/-! ## Claim C9 — error propagation out of template filling -/

/-- Claim C9, amended: `fillTemplateWithAI` swallows every error raised by
its provider call — configuration, HTTP and parsing failures alike — and
falls back to returning the unfilled template content; no error (wrapped or
otherwise) reaches its caller. -/
theorem C9_swallow (worklogStyle templateContent worklogContent : Text)
    (commitMessages : Option (List Text)) (callModel : Text → Except Text Text)
    (err : Text)
    (h : callModel (prTemplatePrompt worklogStyle templateContent worklogContent
          commitMessages) = .error err) :
    fillTemplateWithAI worklogStyle templateContent worklogContent commitMessages callModel
      = templateContent := by
  unfold fillTemplateWithAI
  rw [h]

/-- Witness for C9: a failing provider call yields the unfilled template. -/
theorem C9_swallow_witness :
    fillTemplateWithAI (txt "business") (txt "tmpl") (txt "w") none
        (fun _ => .error (txt "HTTP 500")) = txt "tmpl" :=
  C9_swallow (txt "business") (txt "tmpl") (txt "w") none
    (fun _ => .error (txt "HTTP 500")) (txt "HTTP 500") rfl

/-- Counterexample to claim C9 as stated: a network error raised inside
template filling does not propagate to the caller wrapped in a summary — the
caller receives the original template content and the error is discarded. -/
theorem C9_counterexample :
    fillTemplateWithAI (txt "business") (txt "tmpl") (txt "w") none
        (fun _ => .error (txt "Gemini API error: 500 - boom")) = txt "tmpl" := rfl

/-! ## Claim C7 — worklog reply splitting -/

/-- Claim C7, amended: the split is gated by a case-sensitive containment
check for the literals `DSU SCRIPT` or `I worked on`; only inside that gate
is the reply split on the case-insensitive `/DSU SCRIPT|SCRIPT:/i` boundary.
When the gate fails, or when no boundary is found (single-section split), the
whole reply is returned unchanged as the bullet content; the parser is a
total function, so it never throws on malformed output. -/
theorem C7_parse (content : Text) :
    (dsuGuard content = false → formatWorklogContent content = content) ∧
    (∀ s, dsuSplit content = [s] → formatWorklogContent content = content) ∧
    (∀ s0 s1 rest, dsuGuard content = true → dsuSplit content = s0 :: s1 :: rest →
      formatWorklogContent content = fmtAssemble s0 s1) := by
  refine ⟨fun h => ?_, fun s hs => ?_, fun s0 s1 rest hg hs => ?_⟩
  · simp [formatWorklogContent, h]
  · unfold formatWorklogContent
    rw [hs]
    cases dsuGuard content <;> simp
  · simp [formatWorklogContent, hg, hs]

/-- Witness for C7: a reply containing the exact `DSU SCRIPT` marker is
split into bullet and stand-up sections. -/
theorem C7_parse_witness :
    formatWorklogContent (txt "bullets DSU SCRIPT: speech")
      = fmtAssemble (txt "bullets ") (txt ": speech") :=
  (C7_parse (txt "bullets DSU SCRIPT: speech")).2.2 (txt "bullets ") (txt ": speech") []
    (by decide) (by decide)

/-- Counterexample to claim C7 as stated: the reply `- a\ndsu script: hi`
contains the stand-up boundary marker case-insensitively (so the claimed
case-insensitive split must fire and produce the two-section rendering), yet
the parser returns the reply unchanged, because its outer guard is
case-sensitive. -/
theorem C7_counterexample :
    textIncl ((txt "DSU SCRIPT").map lcase) ((txt "- a\ndsu script: hi").map lcase)
      = true ∧
    dsuSplit (txt "- a\ndsu script: hi") = [txt "- a\n", txt ": hi"] ∧
    formatWorklogContent (txt "- a\ndsu script: hi") = txt "- a\ndsu script: hi" ∧
    txt "- a\ndsu script: hi" ≠ fmtAssemble (txt "- a\n") (txt ": hi") := by
  exact ⟨by decide, by decide, by decide, by decide⟩

/-! ## Claim C10 — model cache keyed by credential prefix -/

theorem getCacheKey_congr (provider k1 k2 : Text) (h : k1.take 8 = k2.take 8) :
    getCacheKey provider k1 = getCacheKey provider k2 := by
  unfold getCacheKey
  rw [h]

theorem fetchGeminiModels_ok_cached (cache : ModelCache) (k : Text)
    (listing : HttpResult GeminiListEnv) (freeCheck : Text → Bool)
    (ms : List ModelInfo) (cache' : ModelCache) (n : Nat)
    (h : fetchGeminiModels cache k listing freeCheck = (.ok ms, cache', n)) :
    getCachedModels cache' (txt "gemini") k = some ms := by
  unfold fetchGeminiModels at h
  cases hc : getCachedModels cache (txt "gemini") k with
  | some cached =>
    rw [hc] at h
    simp only [Prod.mk.injEq, Except.ok.injEq] at h
    obtain ⟨h1, h2, -⟩ := h
    rw [← h2, hc, h1]
  | none =>
    rw [hc] at h
    cases listing with
    | ok env =>
      simp only at h
      split at h
      · simp at h
      · split at h
        · simp at h
        · simp only [Prod.mk.injEq, Except.ok.injEq] at h
          obtain ⟨h1, h2, -⟩ := h
          rw [← h2, ← h1]
          simp [getCachedModels, setCachedModels, cacheGet, List.find?]
    | httpError s b => simp at h
    | netFailure m => simp at h

theorem fetchOpenAIModels_ok_cached (cache : ModelCache) (k : Text)
    (listing : HttpResult OpenAIListEnv)
    (ms : List ModelInfo) (cache' : ModelCache) (n : Nat)
    (h : fetchOpenAIModels cache k listing = (.ok ms, cache', n)) :
    getCachedModels cache' (txt "openai") k = some ms := by
  unfold fetchOpenAIModels at h
  cases hc : getCachedModels cache (txt "openai") k with
  | some cached =>
    rw [hc] at h
    simp only [Prod.mk.injEq, Except.ok.injEq] at h
    obtain ⟨h1, h2, -⟩ := h
    rw [← h2, hc, h1]
  | none =>
    rw [hc] at h
    cases listing with
    | ok env =>
      simp only [Prod.mk.injEq, Except.ok.injEq] at h
      obtain ⟨h1, h2, -⟩ := h
      rw [← h2, ← h1]
      simp [getCachedModels, setCachedModels, cacheGet, List.find?]
    | httpError s b => simp at h
    | netFailure m => simp at h

/-- Claim C10: the model-listing cache identifies credentials by their first
8 characters only — after a successful `fetchGeminiModels` (or
`fetchOpenAIModels`) with one key, a subsequent fetch with any key sharing
the same 8-character prefix is served from the cache: it returns the first
key's model list and performs zero HTTP requests. -/
theorem C10_cache_shared_key (k1 k2 : Text) (hpre : k1.take 8 = k2.take 8) :
    (∀ (cache : ModelCache) (listing1 : HttpResult GeminiListEnv)
        (free1 : Text → Bool) (listing2 : HttpResult GeminiListEnv)
        (free2 : Text → Bool) (ms : List ModelInfo) (cache' : ModelCache) (n : Nat),
      fetchGeminiModels cache k1 listing1 free1 = (.ok ms, cache', n) →
      fetchGeminiModels cache' k2 listing2 free2 = (.ok ms, cache', 0)) ∧
    (∀ (cache : ModelCache) (listing1 listing2 : HttpResult OpenAIListEnv)
        (ms : List ModelInfo) (cache' : ModelCache) (n : Nat),
      fetchOpenAIModels cache k1 listing1 = (.ok ms, cache', n) →
      fetchOpenAIModels cache' k2 listing2 = (.ok ms, cache', 0)) := by
  constructor
  · intro cache l1 f1 l2 f2 ms cache' n h
    have hcached := fetchGeminiModels_ok_cached cache k1 l1 f1 ms cache' n h
    have hk : getCachedModels cache' (txt "gemini") k2 = some ms := by
      unfold getCachedModels at hcached ⊢
      rw [← getCacheKey_congr (txt "gemini") k1 k2 hpre]
      exact hcached
    unfold fetchGeminiModels
    rw [hk]
  · intro cache l1 l2 ms cache' n h
    have hcached := fetchOpenAIModels_ok_cached cache k1 l1 ms cache' n h
    have hk : getCachedModels cache' (txt "openai") k2 = some ms := by
      unfold getCachedModels at hcached ⊢
      rw [← getCacheKey_congr (txt "openai") k1 k2 hpre]
      exact hcached
    unfold fetchOpenAIModels
    rw [hk]

/-- Witness for C10: a concrete cache holding an entry for the prefix
`ABCDEFGH` serves a different credential with the same prefix without any
HTTP request. -/
theorem C10_cache_shared_key_witness :
    fetchGeminiModels
        [(txt "gemini:ABCDEFGH",
          [⟨txt "gemini-2.0-flash", txt "Gemini 2.0 Flash", txt "gemini"⟩])]
        (txt "ABCDEFGHyyy") (.netFailure []) (fun _ => false)
      = (.ok [⟨txt "gemini-2.0-flash", txt "Gemini 2.0 Flash", txt "gemini"⟩],
         [(txt "gemini:ABCDEFGH",
           [⟨txt "gemini-2.0-flash", txt "Gemini 2.0 Flash", txt "gemini"⟩])], 0) :=
  (C10_cache_shared_key (txt "ABCDEFGHxxx") (txt "ABCDEFGHyyy") (by decide)).1
    [(txt "gemini:ABCDEFGH",
      [⟨txt "gemini-2.0-flash", txt "Gemini 2.0 Flash", txt "gemini"⟩])]
    (.netFailure []) (fun _ => false) (.netFailure []) (fun _ => false)
    [⟨txt "gemini-2.0-flash", txt "Gemini 2.0 Flash", txt "gemini"⟩]
    [(txt "gemini:ABCDEFGH",
      [⟨txt "gemini-2.0-flash", txt "Gemini 2.0 Flash", txt "gemini"⟩])]
    0 rfl

/-! ## Claim C8 — cleanup idempotence -/

theorem leadNl_nil : leadNl [] = 0 := rfl

theorem leadNl_cons (c : Char) (l : Text) :
    leadNl (c :: l) = if c = '\n' then leadNl l + 1 else 0 := by
  by_cases h : c = '\n' <;> simp [leadNl, List.takeWhile_cons, h]

theorem startsTwoNl_iff (l : Text) : startsTwoNl l = true ↔ 2 ≤ leadNl l := by
  match l with
  | [] => simp [startsTwoNl, leadNl]
  | [a] =>
    by_cases h : a = '\n' <;>
      simp [startsTwoNl, leadNl_cons, leadNl_nil, h]
  | a :: b :: t =>
    by_cases ha : a = '\n' <;> by_cases hb : b = '\n' <;>
      simp [startsTwoNl, leadNl_cons, ha, hb] <;> omega

theorem startsTwoNl_false_iff (l : Text) : startsTwoNl l = false ↔ leadNl l ≤ 1 := by
  have h := startsTwoNl_iff l
  constructor
  · intro hf
    by_contra hc
    have h2 := h.mpr (by omega)
    rw [h2] at hf
    exact Bool.noConfusion hf
  · intro hle
    cases hs : startsTwoNl l
    · rfl
    · exact absurd (h.mp hs) (by omega)

theorem hasTripleNl_cons (c : Char) (l : Text) :
    hasTripleNl (c :: l) = ((c == '\n') && startsTwoNl l || hasTripleNl l) := rfl

theorem hasTriple_cons_false {c : Char} {l : Text} :
    hasTripleNl (c :: l) = false ↔ ((c = '\n' → leadNl l ≤ 1) ∧ hasTripleNl l = false) := by
  rw [hasTripleNl_cons, Bool.or_eq_false_iff, Bool.and_eq_false_iff]
  constructor
  · rintro ⟨h1, h2⟩
    refine ⟨fun hc => ?_, h2⟩
    cases h1 with
    | inl h => simp [hc] at h
    | inr h => exact (startsTwoNl_false_iff l).mp h
  · rintro ⟨h1, h2⟩
    refine ⟨?_, h2⟩
    by_cases hc : c = '\n'
    · exact Or.inr ((startsTwoNl_false_iff l).mpr (h1 hc))
    · exact Or.inl (by simp [hc])

theorem hasTriple_cons_ne {c : Char} {l : Text} (hc : c ≠ '\n')
    (h : hasTripleNl l = false) : hasTripleNl (c :: l) = false :=
  hasTriple_cons_false.mpr ⟨fun h' => absurd h' hc, h⟩

theorem hasTriple_cons_nl {l : Text} (hlead : leadNl l ≤ 1)
    (h : hasTripleNl l = false) : hasTripleNl ('\n' :: l) = false :=
  hasTriple_cons_false.mpr ⟨fun _ => hlead, h⟩

theorem leadNl_append_le (u v : Text) : leadNl u ≤ leadNl (u ++ v) := by
  induction u with
  | nil => simp [leadNl_nil]
  | cons c t ih =>
    rw [List.cons_append, leadNl_cons, leadNl_cons]
    by_cases h : c = '\n'
    · simp only [if_pos h]; omega
    · simp only [if_neg h]
      omega

theorem hasTriple_false_append_left {u v : Text}
    (h : hasTripleNl (u ++ v) = false) : hasTripleNl u = false := by
  induction u with
  | nil => rfl
  | cons c t ih =>
    rw [List.cons_append, hasTriple_cons_false] at h
    rw [hasTriple_cons_false]
    exact ⟨fun hc => le_trans (leadNl_append_le t v) (h.1 hc), ih h.2⟩

theorem hasTriple_false_append_right {u v : Text}
    (h : hasTripleNl (u ++ v) = false) : hasTripleNl v = false := by
  induction u with
  | nil => exact h
  | cons c t ih =>
    rw [List.cons_append, hasTriple_cons_false] at h
    exact ih h.2

theorem scanReplaceAux_nil (M : Bool → Text → Option (Nat × Text × Bool))
    (fuel : Nat) (st : Bool) : scanReplaceAux M fuel st [] = [] := by
  cases fuel <;> rfl

theorem drop_leadNl (l : Text) : l.drop (leadNl l) = l.dropWhile (fun c => c == '\n') := by
  induction l with
  | nil => rfl
  | cons c t ih =>
    by_cases h : c = '\n'
    · subst h
      rw [leadNl_cons, if_pos rfl, List.drop_succ_cons, ih, List.dropWhile_cons]
      simp
    · rw [leadNl_cons, if_neg h, List.drop_zero, List.dropWhile_cons]
      simp [h]

theorem leadNl_dropWhile (l : Text) : leadNl (l.dropWhile (fun c => c == '\n')) = 0 := by
  cases h : l.dropWhile (fun c => c == '\n') with
  | nil => rfl
  | cons c t =>
    have hf := dropWhile_head_false h
    rw [leadNl_cons, if_neg (by simpa using hf)]

theorem leadNl_ge_two {l : Text} (h : 2 ≤ leadNl l) : ∃ t, l = '\n' :: '\n' :: t := by
  match l with
  | [] => simp [leadNl_nil] at h
  | [a] =>
    rw [leadNl_cons] at h
    by_cases ha : a = '\n'
    · rw [if_pos ha, leadNl_nil] at h; omega
    · rw [if_neg ha] at h; omega
  | a :: b :: t =>
    rw [leadNl_cons] at h
    by_cases ha : a = '\n'
    · rw [if_pos ha, leadNl_cons] at h
      by_cases hb : b = '\n'
      · exact ⟨t, by rw [ha, hb]⟩
      · rw [if_neg hb] at h; omega
    · rw [if_neg ha] at h; omega

theorem mCollapse_none {st : Bool} {a : Char} {rest : Text}
    (h : mCollapse st (a :: rest) = none) (ha : a = '\n') : leadNl rest ≤ 1 := by
  by_contra hc
  obtain ⟨t, ht⟩ := leadNl_ge_two (show 2 ≤ leadNl rest by omega)
  subst ha
  rw [ht] at h
  simp [mCollapse] at h

theorem mCollapse_some {st : Bool} {l : Text} {k : Nat} {rep : Text} {b : Bool}
    (h : mCollapse st l = some (k, rep, b)) :
    rep = txt "\n\n" ∧ k = leadNl l ∧ 3 ≤ leadNl l := by
  match l with
  | [] => simp [mCollapse] at h
  | [a] => simp [mCollapse] at h
  | [a, b'] => simp [mCollapse] at h
  | a :: b' :: c :: rest =>
    simp only [mCollapse] at h
    split_ifs at h with hcond
    obtain ⟨ha, hb, hc⟩ := hcond
    simp only [Option.some.injEq, Prod.mk.injEq] at h
    obtain ⟨hk, hrep, -⟩ := h
    subst ha; subst hb; subst hc
    have hlead : leadNl ('\n' :: '\n' :: '\n' :: rest)
        = 3 + (rest.takeWhile (fun x => x == '\n')).length := by
      rw [leadNl_cons, if_pos rfl, leadNl_cons, if_pos rfl, leadNl_cons, if_pos rfl]
      unfold leadNl
      omega
    refine ⟨hrep.symm, ?_, ?_⟩
    · rw [hlead, ← hk]
    · rw [hlead]; omega

theorem collapse_clean_aux : ∀ (fuel : Nat) (st : Bool) (l : Text),
    hasTripleNl (scanReplaceAux mCollapse fuel st l) = false ∧
    leadNl (scanReplaceAux mCollapse fuel st l) ≤ leadNl l ∧
    leadNl (scanReplaceAux mCollapse fuel st l) ≤ 2 := by
  intro fuel
  induction fuel with
  | zero => intro st l; simp [scanReplaceAux, leadNl_nil, hasTripleNl]
  | succ n ih =>
    intro st l
    match l with
    | [] => simp [scanReplaceAux, leadNl_nil, hasTripleNl]
    | a :: rest =>
      simp only [scanReplaceAux]
      cases hm : mCollapse st (a :: rest) with
      | none =>
        simp only []
        obtain ⟨ih1, ih2, ih3⟩ := ih (a == '\n') rest
        refine ⟨?_, ?_, ?_⟩
        · rw [hasTriple_cons_false]
          refine ⟨fun ha => ?_, ih1⟩
          have hle := mCollapse_none hm ha
          omega
        · rw [leadNl_cons, leadNl_cons]
          by_cases ha : a = '\n'
          · simp only [if_pos ha]; omega
          · simp only [if_neg ha]; omega
        · rw [leadNl_cons]
          by_cases ha : a = '\n'
          · rw [if_pos ha]
            have hle := mCollapse_none hm ha
            omega
          · rw [if_neg ha]; omega
      | some r =>
        obtain ⟨k, rep, stb⟩ := r
        simp only []
        obtain ⟨hrep, hk, h3⟩ := mCollapse_some hm
        subst hrep
        have hdrop : rest.drop (k - 1) = (a :: rest).dropWhile (fun c => c == '\n') := by
          obtain ⟨j, rfl⟩ : ∃ j, k = j + 1 := ⟨k - 1, by omega⟩
          have hsh : (a :: rest).drop (j + 1) = rest.drop j := by
            simp [List.drop_succ_cons]
          rw [show j + 1 - 1 = j from rfl, ← hsh, hk, drop_leadNl]
        rw [show (txt "\n\n" : Text) = ['\n', '\n'] from rfl]
        simp only [List.cons_append, List.nil_append]
        rw [hdrop]
        obtain ⟨ih1, ih2, ih3⟩ := ih stb ((a :: rest).dropWhile (fun c => c == '\n'))
        have hzero := leadNl_dropWhile (a :: rest)
        refine ⟨hasTriple_cons_nl ?_ (hasTriple_cons_nl ?_ ih1), ?_, ?_⟩
        · rw [leadNl_cons, if_pos rfl]
          omega
        · omega
        · rw [leadNl_cons, if_pos rfl, leadNl_cons, if_pos rfl]
          omega
        · rw [leadNl_cons, if_pos rfl, leadNl_cons, if_pos rfl]
          omega

theorem collapse_clean (l : Text) :
    hasTripleNl (scanReplace mCollapse l) = false :=
  (collapse_clean_aux l.length true l).1

theorem mNASpacing_some {st : Bool} {l : Text} {k : Nat} {rep : Text} {b : Bool}
    (h : mNASpacing st l = some (k, rep, b)) :
    (∃ e t, e ≠ '\n' ∧ k = 5 ∧ rep = txt "N/A\n\n" ++ [e]
        ∧ l = 'N' :: '/' :: 'A' :: '\n' :: e :: t) ∨
    (∃ e t, e ≠ '\n' ∧ k = 6 ∧ rep = txt "None\n\n" ++ [e]
        ∧ l = 'N' :: 'o' :: 'n' :: 'e' :: '\n' :: e :: t) := by
  match l with
  | [] => exact absurd h (by simp [mNASpacing])
  | [a] => exact absurd h (by simp [mNASpacing])
  | [a, b'] => exact absurd h (by simp [mNASpacing])
  | [a, b', c] => exact absurd h (by simp [mNASpacing])
  | a :: b' :: c :: d :: rest =>
    simp only [mNASpacing] at h
    split_ifs at h with h1 h2
    · obtain ⟨ha, hb, hc, hd⟩ := h1
      subst ha; subst hb; subst hc; subst hd
      cases rest with
      | nil => exact absurd h (by simp)
      | cons e t =>
        have h' : (if e = '#' ∨ e = '\n' then none
            else some (5, txt "N/A\n\n" ++ [e], false)) = some (k, rep, b) := h
        split_ifs at h' with he
        simp only [Option.some.injEq, Prod.mk.injEq] at h'
        obtain ⟨hk, hrep, -⟩ := h'
        push_neg at he
        exact Or.inl ⟨e, t, he.2, hk.symm, hrep.symm, rfl⟩
    · obtain ⟨ha, hb, hc, hd⟩ := h2
      subst ha; subst hb; subst hc; subst hd
      cases rest with
      | nil => exact absurd h (by simp)
      | cons e rest2 =>
        cases rest2 with
        | nil => exact absurd h (by simp)
        | cons f t =>
          have h' : (if e = '\n' then
              if f = '#' ∨ f = '\n' then none
              else some (6, txt "None\n\n" ++ [f], false)
            else none) = some (k, rep, b) := h
          split_ifs at h' with he hf
          simp only [Option.some.injEq, Prod.mk.injEq] at h'
          obtain ⟨hk, hrep, -⟩ := h'
          push_neg at hf
          subst he
          exact Or.inr ⟨f, t, hf.2, hk.symm, hrep.symm, rfl⟩

theorem naspacing_clean_aux : ∀ (fuel : Nat) (st : Bool) (l : Text),
    hasTripleNl l = false →
    hasTripleNl (scanReplaceAux mNASpacing fuel st l) = false ∧
    leadNl (scanReplaceAux mNASpacing fuel st l) ≤ leadNl l := by
  intro fuel
  induction fuel with
  | zero => intro st l _; simp [scanReplaceAux, hasTripleNl, leadNl_nil]
  | succ n ih =>
    intro st l h
    match l with
    | [] => simp [scanReplaceAux, hasTripleNl, leadNl_nil]
    | a :: rest =>
      simp only [scanReplaceAux]
      cases hm : mNASpacing st (a :: rest) with
      | none =>
        simp only []
        have hparts := hasTriple_cons_false.mp h
        obtain ⟨ih1, ih2⟩ := ih (a == '\n') rest hparts.2
        constructor
        · rw [hasTriple_cons_false]
          exact ⟨fun ha => le_trans ih2 (hparts.1 ha), ih1⟩
        · rw [leadNl_cons, leadNl_cons]
          by_cases ha : a = '\n'
          · simp only [if_pos ha]; omega
          · simp only [if_neg ha]; omega
      | some r =>
        obtain ⟨k, rep, stb⟩ := r
        simp only []
        rcases mNASpacing_some hm with ⟨e, t, he, hk, hrep, hl⟩ | ⟨e, t, he, hk, hrep, hl⟩
        · subst hk; subst hrep
          injection hl with ha hrest
          subst ha; subst hrest
          have ht : hasTripleNl t = false := by
            rw [hasTriple_cons_false] at h; replace h := h.2
            rw [hasTriple_cons_false] at h; replace h := h.2
            rw [hasTriple_cons_false] at h; replace h := h.2
            rw [hasTriple_cons_false] at h; replace h := h.2
            rw [hasTriple_cons_false] at h
            exact h.2
          obtain ⟨ih1, ih2⟩ := ih stb t ht
          have h0 : leadNl (e :: scanReplaceAux mNASpacing n stb t) = 0 := by
            rw [leadNl_cons, if_neg he]
          constructor
          · show hasTripleNl
              ('N' :: '/' :: 'A' :: '\n' :: '\n' :: e :: scanReplaceAux mNASpacing n stb t)
              = false
            refine hasTriple_cons_ne (by decide) (hasTriple_cons_ne (by decide)
              (hasTriple_cons_ne (by decide) (hasTriple_cons_nl ?_ (hasTriple_cons_nl ?_
                (hasTriple_cons_ne he ih1)))))
            · rw [leadNl_cons, if_pos rfl, h0]
            · rw [h0]
              omega
          · show leadNl
              ('N' :: '/' :: 'A' :: '\n' :: '\n' :: e :: scanReplaceAux mNASpacing n stb t)
              ≤ leadNl ('N' :: '/' :: 'A' :: '\n' :: e :: t)
            rw [leadNl_cons, if_neg (by decide)]
            omega
        · subst hk; subst hrep
          injection hl with ha hrest
          subst ha; subst hrest
          have ht : hasTripleNl t = false := by
            rw [hasTriple_cons_false] at h; replace h := h.2
            rw [hasTriple_cons_false] at h; replace h := h.2
            rw [hasTriple_cons_false] at h; replace h := h.2
            rw [hasTriple_cons_false] at h; replace h := h.2
            rw [hasTriple_cons_false] at h; replace h := h.2
            rw [hasTriple_cons_false] at h
            exact h.2
          obtain ⟨ih1, ih2⟩ := ih stb t ht
          have h0 : leadNl (e :: scanReplaceAux mNASpacing n stb t) = 0 := by
            rw [leadNl_cons, if_neg he]
          constructor
          · show hasTripleNl
              ('N' :: 'o' :: 'n' :: 'e' :: '\n' :: '\n' :: e
                :: scanReplaceAux mNASpacing n stb t) = false
            refine hasTriple_cons_ne (by decide) (hasTriple_cons_ne (by decide)
              (hasTriple_cons_ne (by decide) (hasTriple_cons_ne (by decide)
                (hasTriple_cons_nl ?_ (hasTriple_cons_nl ?_
                  (hasTriple_cons_ne he ih1))))))
            · rw [leadNl_cons, if_pos rfl, h0]
            · rw [h0]
              omega
          · show leadNl
              ('N' :: 'o' :: 'n' :: 'e' :: '\n' :: '\n' :: e
                :: scanReplaceAux mNASpacing n stb t)
              ≤ leadNl ('N' :: 'o' :: 'n' :: 'e' :: '\n' :: e :: t)
            rw [leadNl_cons, if_neg (by decide)]
            omega

theorem naspacing_clean {l : Text} (h : hasTripleNl l = false) :
    hasTripleNl (scanReplace mNASpacing l) = false :=
  (naspacing_clean_aux l.length true l h).1


theorem hasTriple_trimLeft {l : Text} (h : hasTripleNl l = false) :
    hasTripleNl (trimLeft l) = false := by
  obtain ⟨u, hu⟩ := (List.dropWhile_suffix jsWs : l.dropWhile jsWs <:+ l)
  rw [← hu] at h
  exact hasTriple_false_append_right h

theorem hasTriple_trimRight {l : Text} (h : hasTripleNl l = false) :
    hasTripleNl (trimRight l) = false := by
  obtain ⟨s, hs⟩ := trimRight_isPre l
  rw [← hs] at h
  exact hasTriple_false_append_left h

theorem hasTriple_jsTrim {l : Text} (h : hasTripleNl l = false) :
    hasTripleNl (jsTrim l) = false :=
  hasTriple_trimRight (hasTriple_trimLeft h)

/-- Claim C8, amended: the template cleanup pass is not idempotent (see the
counterexample: a second application strips a further code fence).  What each
single pass does guarantee: its output carries no leading or trailing
whitespace (so the final trim stage is idempotent on it), and contains no run
of three or more consecutive newlines (so the blank-line collapse stage is
idempotent on it). -/
theorem C8_cleanup (template : Text) :
    jsTrim (cleanupTemplate template) = cleanupTemplate template ∧
    hasTripleNl (cleanupTemplate template) = false := by
  constructor
  · show jsTrim (jsTrim (scanReplace mNASpacing (scanReplace mCollapse
      (scanReplace mBlankBeforeBullet (scanReplace mStarSpacing (scanReplace mCheckbox
        (scanReplace mBlankAfterHeader (scanReplace mBlankBeforeHeader
          (stripFenceClose (stripFenceOpen (stripFenceMarkdown (jsTrim template))))))))))))
      = jsTrim (scanReplace mNASpacing (scanReplace mCollapse
      (scanReplace mBlankBeforeBullet (scanReplace mStarSpacing (scanReplace mCheckbox
        (scanReplace mBlankAfterHeader (scanReplace mBlankBeforeHeader
          (stripFenceClose (stripFenceOpen (stripFenceMarkdown (jsTrim template)))))))))))
    exact jsTrim_idem _
  · show hasTripleNl (jsTrim (scanReplace mNASpacing (scanReplace mCollapse
      (scanReplace mBlankBeforeBullet (scanReplace mStarSpacing (scanReplace mCheckbox
        (scanReplace mBlankAfterHeader (scanReplace mBlankBeforeHeader
          (stripFenceClose (stripFenceOpen (stripFenceMarkdown (jsTrim template)))))))))))) = false
    exact hasTriple_jsTrim (naspacing_clean (collapse_clean _))

/-- Counterexample to claim C8 as stated: on the input "```\n```\nabc" one
cleanup pass strips only the first code fence, and a second pass strips the
newly exposed fence, so cleanup∘cleanup differs from cleanup. -/
theorem C8_counterexample :
    cleanupTemplate (cleanupTemplate (txt "```\n```\nabc"))
      ≠ cleanupTemplate (txt "```\n```\nabc") := by decide

end WorklogAI
